import Mathlib

/-
Verification development for the Team-Aden repository.

The repository has two Python source files:
  - parser.py: Game.read_efg, a line-oriented reader of an extensive-form-game
    text format into a Game object (players, infosets, node table, order list).
  - team_belief_dag.py: TeamBeliefDag (whose builder efg_to_tbdag has an empty
    body) and DagRegMin, a regret-minimization solver with a forward pass
    next_strategy and a backward pass observe_utility.

Below, each Python function is embedded shallowly: Python dicts become
association lists (for the parser, where contents are compared) or
Option-valued lookup functions (for the solver, where missing keys matter);
Python numbers become rationals; raising becomes Except.  Python dict
semantics are kept: assignment overwrites in place, lookup of a missing key
is a KeyError, insertion order is preserved.
-/

/- ===================== parser.py embedding ===================== -/

/-- Python dict assignment d[k] = v on an insertion-ordered association list:
overwrite in place if the key exists, else append at the end. -/
def dictSet {K V : Type} [DecidableEq K] (d : List (K × V)) (k : K) (v : V) :
    List (K × V) :=
  match d with
  | [] => [(k, v)]
  | (k0, v0) :: rest =>
      if k0 = k then (k, v) :: rest else (k0, v0) :: dictSet rest k v

/-- Python dict lookup d[k] on an association list. -/
def dictGet {K V : Type} [DecidableEq K] (d : List (K × V)) (k : K) : Option V :=
  match d with
  | [] => none
  | (k0, v0) :: rest => if k0 = k then some v0 else dictGet rest k

/-- Python set.add on a duplicate-free list (insertion order kept). -/
def setAdd {K : Type} [DecidableEq K] (s : List K) (k : K) : List K :=
  if k ∈ s then s else s ++ [k]

/-- Insert an integer into an already sorted list, keeping it sorted. -/
def insertSorted (x : Int) : List Int → List Int
  | [] => [x]
  | y :: ys => if x ≤ y then x :: y :: ys else y :: insertSorted x ys

/-- Python sorted(...) on a list of integers, via insertion sort. -/
def sortInts (l : List Int) : List Int := l.foldr insertSorted []

/-- Python str.strip(): remove leading and trailing whitespace. -/
def pyStrip (s : String) : String :=
  String.mk
    (((s.data.dropWhile Char.isWhitespace).reverse.dropWhile Char.isWhitespace).reverse)

/-- Python s.startswith(pre). -/
def strStarts (pre s : String) : Bool :=
  pre.data.isPrefixOf s.data

/-- Python slicing s[n:] by character count (all prefixes sliced off in the
parser are ASCII, where Python character slicing and this agree). -/
def strDrop (s : String) (n : Nat) : String := String.mk (s.data.drop n)

/-- Python slicing s[:n] by character count. -/
def strTake (s : String) (n : Nat) : String := String.mk (s.data.take n)

/-- Worker for pyWsSplit: walk the characters, accumulating the current
token reversed; whitespace closes the token, and no empty token is kept. -/
def wsSplitAux : List Char → List Char → List (List Char)
  | [], acc => if acc = [] then [] else [acc.reverse]
  | c :: cs, acc =>
      if c.isWhitespace then
        if acc = [] then wsSplitAux cs [] else acc.reverse :: wsSplitAux cs []
      else wsSplitAux cs (c :: acc)

/-- Python str.split() with no separator: split on whitespace runs and drop
empty pieces. -/
def pyWsSplit (s : String) : List String :=
  (wsSplitAux s.data []).map String.mk

/-- Split a character list at the leftmost occurrence of the separator;
none when the separator does not occur. -/
def splitFirst (sep : List Char) : List Char → Option (List Char × List Char)
  | [] => none
  | c :: cs =>
      if sep.isPrefixOf (c :: cs) then some ([], (c :: cs).drop sep.length)
      else
        match splitFirst sep cs with
        | none => none
        | some (pre, post) => some (c :: pre, post)

/-- Python s.split(sep, 1) for a non-empty separator: at most one split, at
the first occurrence; a singleton result means the separator does not
occur. -/
def pySplit1 (sep s : String) : List String :=
  match splitFirst sep.data s.data with
  | none => [s]
  | some (pre, post) => [String.mk pre, String.mk post]

/-- Python s.split(maxsplit=1) with no separator: skip leading whitespace,
take the first whitespace-free token, skip the following whitespace run and
keep the remainder verbatim; an all-whitespace remainder is dropped. -/
def pyMaxSplit1 (s : String) : List String :=
  let cs := s.data.dropWhile Char.isWhitespace
  if cs.isEmpty then []
  else
    let t := cs.takeWhile (fun c => !c.isWhitespace)
    let r := (cs.dropWhile (fun c => !c.isWhitespace)).dropWhile Char.isWhitespace
    if r.isEmpty then [String.mk t] else [String.mk t, String.mk r]

/-- Numeric value of a list of decimal digit characters. -/
def digitsToNat (ds : List Char) : Nat :=
  ds.foldl (fun n c => n * 10 + (c.toNat - 48)) 0

/-- Strip one optional leading sign character; returns whether it was a minus
and the remaining characters. -/
def stripSign : List Char → Bool × List Char
  | [] => (false, [])
  | c :: cs =>
      if c = '-' then (true, cs)
      else if c = '+' then (false, cs)
      else (false, c :: cs)

/-- Python int(s): optional surrounding whitespace, optional sign, then a
non-empty digit string.  (Digit-grouping underscores are not modelled; no
input in this development uses them.) -/
def parsePyInt (s : String) : Option Int :=
  let cs := (pyStrip s).data
  let sn := stripSign cs
  let ds := sn.2
  if ds ≠ [] ∧ ds.all Char.isDigit then
    some (if sn.1 then -(digitsToNat ds : Int) else (digitsToNat ds : Int))
  else none

/-- Mantissa of a Python float literal: digits, digits.digits, digits., or
.digits; returns the digits read as an integer, the count of fractional
digits, and the remaining characters. -/
def parseMantissa (cs : List Char) : Option (Nat × Nat × List Char) :=
  let ip := cs.takeWhile Char.isDigit
  let rest := cs.dropWhile Char.isDigit
  match rest with
  | '.' :: rest2 =>
      let fp := rest2.takeWhile Char.isDigit
      let rest3 := rest2.dropWhile Char.isDigit
      if ip = [] ∧ fp = [] then none
      else some (digitsToNat (ip ++ fp), fp.length, rest3)
  | _ =>
      if ip = [] then none else some (digitsToNat ip, 0, rest)

/-- Exponent part of a Python float literal: empty, or e/E followed by an
optional sign and a non-empty digit string consuming the whole remainder. -/
def parseExponent (cs : List Char) : Option Int :=
  match cs with
  | [] => some 0
  | c :: rest =>
      if c = 'e' ∨ c = 'E' then
        let sn := stripSign rest
        let ds := sn.2
        if ds ≠ [] ∧ ds.all Char.isDigit then
          some (if sn.1 then -(digitsToNat ds : Int) else (digitsToNat ds : Int))
        else none
      else none

/-- Python float(s) on finite decimal literals: optional surrounding
whitespace, optional sign, mantissa, optional exponent.  The value is kept
exactly as a rational.  (The inf/infinity/nan spellings and digit-grouping
underscores accepted by Python are not modelled; no input here uses them.) -/
def parsePyFloat (s : String) : Option ℚ :=
  let cs := (pyStrip s).data
  let sn := stripSign cs
  match parseMantissa sn.2 with
  | none => none
  | some (m, fr, rest) =>
      match parseExponent rest with
      | none => none
      | some e =>
          let q : ℚ := (m : ℚ) / (10 : ℚ) ^ fr * (10 : ℚ) ^ e
          some (if sn.1 then -q else q)

/-- The Node dataclass of parser.py: path, node_type ("chance", "player" or
"leaf"), optional player, actions, action probabilities, payoffs; the
dataclass defaults fill the unused fields with empty collections. -/
structure Node where
  path : String
  node_type : String
  player : Option Int
  actions : List String
  action_probs : List (String × ℚ)
  payoffs : List (Int × ℚ)
deriving DecidableEq

/-- The Infoset dataclass of parser.py: a name and the node paths grouped by
the information set. -/
structure Infoset where
  name : String
  nodes : List String
deriving DecidableEq

/-- The Game class of parser.py: players, history-to-infoset map, infoset
table, top-down order list and node table. -/
structure Game where
  players : List Int
  hist_to_infoset : List (String × String)
  infosets : List (String × Infoset)
  order : List String
  nodes : List (String × Node)
deriving DecidableEq

/-- Game() with no players argument. -/
def emptyGame : Game :=
  { players := [], hist_to_infoset := [], infosets := [], order := [], nodes := [] }

/-- An in-flight read_efg state: the Game being populated plus the local
players_set accumulator of read_efg. -/
structure EfgReadState where
  game : Game
  players_set : List Int
deriving DecidableEq

/-- An error raised while handling one line, before the line number is
attached: atLine errors are the ValueError calls of read_efg itself, whose
message is prefixed with the line number; noLine errors are the ValueError
raised inside the Python float() and int() conversions, whose message does
not mention the line number. -/
inductive RawErr where
  | atLine (msg : String)
  | noLine (msg : String)
deriving DecidableEq

/-- A parse error as surfaced by read_efg: lineErr carries the 1-based line
number (the f-string Line N errors), valueErr does not (float/int
conversion errors). -/
inductive ParseErr where
  | lineErr (lineNum : Nat) (msg : String)
  | valueErr (msg : String)
deriving DecidableEq

/-- Attach the current line number to a raw error, exactly as read_efg does:
its own ValueError calls interpolate the line number, the conversion errors
from float() and int() propagate unchanged. -/
def decorate (k : Nat) : RawErr → ParseErr
  | RawErr.atLine m => ParseErr.lineErr k m
  | RawErr.noLine m => ParseErr.valueErr m

/-- Whether a surfaced parse error message carries the offending input line
number. -/
def reportsLine : ParseErr → Bool
  | ParseErr.lineErr _ _ => true
  | ParseErr.valueErr _ => false

/-- The outcome of parsing a single line of the EFG file, before it is
applied to the Game state. -/
inductive LineResult where
  | blank
  | infosetLine (name : String) (paths : List String)
  | chanceLine (path : String) (toks : List (String × ℚ))
  | leafLine (path : String) (toks : List (Int × ℚ))
  | playerLine (path : String) (player : Int) (actions : List String)
deriving DecidableEq

/-- One action=prob token of a chance line: reject a token without an equals
sign with the Invalid-action-format line error, then convert the probability
with float(). -/
def parseChanceTok (tok : String) : Except RawErr (String × ℚ) :=
  match pySplit1 "=" tok with
  | [a, p] =>
      match parsePyFloat p with
      | some q => Except.ok (a, q)
      | none => Except.error (RawErr.noLine ("could not convert string to float: " ++ p))
  | _ => Except.error (RawErr.atLine ("Invalid action format: " ++ tok))

/-- One player=payoff token of a leaf line: reject a token without an equals
sign with the Invalid-payoff-format line error, then convert the player with
int() and the payoff with float(), in that order. -/
def parseLeafTok (tok : String) : Except RawErr (Int × ℚ) :=
  match pySplit1 "=" tok with
  | [pl, po] =>
      match parsePyInt pl with
      | none => Except.error (RawErr.noLine ("invalid literal for int with base 10: " ++ pl))
      | some n =>
          match parsePyFloat po with
          | some q => Except.ok (n, q)
          | none => Except.error (RawErr.noLine ("could not convert string to float: " ++ po))
  | _ => Except.error (RawErr.atLine ("Invalid payoff format: " ++ tok))

/-- Parse one line of the EFG file, mirroring the branch structure of
read_efg: strip, skip blank lines, the infoset form, then the node form with
its chance, leaf and player sub-forms checked in source order, and a
distinct error for every rejected shape. -/
def parseLine (raw : String) : Except RawErr LineResult :=
  let line := pyStrip raw
  if line = "" then Except.ok LineResult.blank
  else if strStarts "infoset " line then
    match pySplit1 " nodes " (strDrop line 8) with
    | [nm, rest] => Except.ok (LineResult.infosetLine nm (pyWsSplit rest))
    | _ => Except.error (RawErr.atLine "Invalid infoset format")
  else if strStarts "node " line then
    match pyMaxSplit1 (strDrop line 5) with
    | [p, rest] =>
        if strStarts "chance actions " rest then
          match (pyWsSplit (strDrop rest 15)).mapM parseChanceTok with
          | Except.ok toks => Except.ok (LineResult.chanceLine p toks)
          | Except.error e => Except.error e
        else if strStarts "leaf payoffs " rest then
          match (pyWsSplit (strDrop rest 13)).mapM parseLeafTok with
          | Except.ok toks => Except.ok (LineResult.leafLine p toks)
          | Except.error e => Except.error e
        else if strStarts "player " rest then
          match pySplit1 " actions " (strDrop rest 7) with
          | [ps, as0] =>
              match parsePyInt ps with
              | some pn => Except.ok (LineResult.playerLine p pn (pyWsSplit as0))
              | none =>
                  Except.error (RawErr.noLine ("invalid literal for int with base 10: " ++ ps))
          | _ => Except.error (RawErr.atLine "Invalid player node format")
        else Except.error (RawErr.atLine ("Unknown node type in: " ++ strTake rest 50))
    | _ => Except.error (RawErr.atLine "Invalid format, expected path and node info")
  else
    Except.error
      (RawErr.atLine ("Expected line to start with node or infoset, got: " ++ strTake line 50))

/-- Apply one successfully parsed line to the read_efg state: infoset lines
update the infoset table and the history map, node lines append the path to
order (duplicates included) and overwrite the nodes entry, leaf and player
lines add their players to players_set. -/
def applyLine (st : EfgReadState) : LineResult → EfgReadState
  | LineResult.blank => st
  | LineResult.infosetLine nm paths =>
      let g := st.game
      let g := { g with infosets := dictSet g.infosets nm { name := nm, nodes := paths } }
      let g := paths.foldl
        (fun g p => { g with hist_to_infoset := dictSet g.hist_to_infoset p nm }) g
      { st with game := g }
  | LineResult.chanceLine p toks =>
      let g := st.game
      let nd : Node :=
        { path := p, node_type := "chance", player := none,
          actions := toks.map Prod.fst,
          action_probs := toks.foldl (fun d t => dictSet d t.1 t.2) [],
          payoffs := [] }
      { st with game := { g with order := g.order ++ [p], nodes := dictSet g.nodes p nd } }
  | LineResult.leafLine p toks =>
      let g := st.game
      let nd : Node :=
        { path := p, node_type := "leaf", player := none, actions := [],
          action_probs := [],
          payoffs := toks.foldl (fun d t => dictSet d t.1 t.2) [] }
      { game := { g with order := g.order ++ [p], nodes := dictSet g.nodes p nd },
        players_set := toks.foldl (fun s t => setAdd s t.1) st.players_set }
  | LineResult.playerLine p pn acts =>
      let g := st.game
      let nd : Node :=
        { path := p, node_type := "player", player := some pn, actions := acts,
          action_probs := [], payoffs := [] }
      { game := { g with order := g.order ++ [p], nodes := dictSet g.nodes p nd },
        players_set := setAdd st.players_set pn }

/-- The line loop of read_efg: lines are numbered from 1; the first failing
line aborts the whole read with its decorated error. -/
def readLines (st : EfgReadState) (k : Nat) : List String → Except ParseErr EfgReadState
  | [] => Except.ok st
  | l :: ls =>
      match parseLine l with
      | Except.error e => Except.error (decorate k e)
      | Except.ok r => readLines (applyLine st r) (k + 1) ls

/-- Game.read_efg of parser.py over the list of input lines: run the line
loop from an empty Game, then set players to the sorted players_set. -/
def read_efg (lines : List String) : Except ParseErr Game :=
  match readLines { game := emptyGame, players_set := [] } 1 lines with
  | Except.error e => Except.error e
  | Except.ok st => Except.ok { st.game with players := sortInts st.players_set }

/- ===================== team_belief_dag.py embedding ===================== -/

/-- Belief-node identifiers; the Python code is untyped, concrete instances
use numbers. -/
abbrev NodeId := Nat

/-- Action identifiers at a belief node. -/
abbrev ActId := Nat

/-- A key of the solver's x, x_prime and u dicts: the Python code indexes
them both with a node and with a (node, action) tuple. -/
inductive Key where
  | node (n : NodeId)
  | pair (n : NodeId) (a : ActId)
deriving DecidableEq

/-- A value stored in the solver's x dict: next_strategy first assigns the
empty dict to x[node], then overwrites it with the number 1 once per action,
and stores numbers at (node, action) keys; nothing ever writes into the
empty dict. -/
inductive XVal where
  | num (q : ℚ)
  | emptyDict
deriving DecidableEq

/-- The dag object DagRegMin reads: nodes, active_nodes, the root, child_of
(whose per-node dict is iterated for its action keys and measured with len),
parent_of (iterated for parent nodes), and the node_type attribute consulted
by observe_utility.  TeamBeliefDag.efg_to_tbdag, which was meant to populate
these tables, has an empty body in the source, so the structure is kept
abstract exactly as the solver code accesses it. -/
structure TeamBeliefDag where
  nodes : List NodeId
  active_nodes : List NodeId
  root : NodeId
  child_of : NodeId → List ActId
  parent_of : NodeId → List NodeId
  node_type : NodeId → String

/-- The mutable state of a DagRegMin instance: the regret table (a dict of
per-node dicts), the reach table x and the local-strategy table x_prime.
x_prime only ever receives per-node dicts, but observe_utility looks it up
at (node, action) tuple keys, which is why it is keyed by Key. -/
structure SolverState where
  regret : NodeId → Option (ActId → Option ℚ)
  x : Key → Option XVal
  x_prime : Key → Option (ActId → Option ℚ)

/-- DagRegMin.__init__: regret, x and x_prime all start as empty dicts. -/
def freshSolver : SolverState :=
  { regret := fun _ => none, x := fun _ => none, x_prime := fun _ => none }

/-- Dict lookup in solver tables: a missing key raises KeyError. -/
def getq {α : Type} (o : Option α) : Except String α :=
  match o with
  | some v => Except.ok v
  | none => Except.error "KeyError"

/-- Overwrite one Key entry of a solver dict. -/
def kset {V : Type} (m : Key → Option V) (k : Key) (v : V) : Key → Option V :=
  fun k2 => if k2 = k then some v else m k2

/-- Overwrite one node entry of the regret dict. -/
def nset {V : Type} (m : NodeId → Option V) (n : NodeId) (v : V) :
    NodeId → Option V :=
  fun n2 => if n2 = n then some v else m n2

/-- Overwrite one action entry of an inner per-node dict. -/
def aset (d : ActId → Option ℚ) (a : ActId) (v : ℚ) : ActId → Option ℚ :=
  fun a2 => if a2 = a then some v else d a2

/-- The initialization loop of next_strategy (lines 32-36): for every dag
node assign fresh empty dicts to x[node] and x_prime[node], then per action
set x[node] = 1 and x_prime[node][action] = 1 (the latter reads the inner
dict back out of x_prime first, as the Python subscript does). -/
def initNode (dag : TeamBeliefDag) (s : SolverState) (n : NodeId) :
    Except String SolverState := do
  let s := { s with x := kset s.x (Key.node n) XVal.emptyDict,
                    x_prime := kset s.x_prime (Key.node n) (fun _ => none) }
  (dag.child_of n).foldlM
    (fun st a => do
      let d ← getq (st.x_prime (Key.node n))
      Except.ok { st with x := kset st.x (Key.node n) (XVal.num 1),
                          x_prime := kset st.x_prime (Key.node n) (aset d a 1) })
    s

/-- Line 40 of next_strategy: sum(x[parent] for parent in parent_of[node]).
Python sum starts from the integer 0; a missing parent key raises KeyError
and adding a dict value raises TypeError. -/
def sumParents (x : Key → Option XVal) (ps : List NodeId) : Except String ℚ :=
  ps.foldlM
    (fun acc p =>
      match x (Key.node p) with
      | none => Except.error "KeyError"
      | some (XVal.num q) => Except.ok (acc + q)
      | some XVal.emptyDict => Except.error "TypeError")
    0

/-- Line 42 of next_strategy: S = sum(max(regret[node][action], 0) for
action in child_of[node]), with both dict subscripts able to raise
KeyError. -/
def computeS (regret : NodeId → Option (ActId → Option ℚ)) (n : NodeId)
    (acts : List ActId) : Except String ℚ :=
  acts.foldlM
    (fun acc a => do
      let d ← getq (regret n)
      let r ← getq (d a)
      Except.ok (acc + max r 0))
    0

/-- The body of the main next_strategy loop (lines 38-51) for one active
node: for a non-root node overwrite x[node] with the unweighted parent sum,
compute S, then per action set x_prime[node][action] to 1/len(actions) when
S = 0 and to max(regret[node][action] - S, 0) / S otherwise, and store
x[(node, action)] = x_prime[node][action] * x[node] (a dict-valued x[node]
would raise TypeError in the multiplication). -/
def activeStep (dag : TeamBeliefDag) (st : SolverState) (n : NodeId) :
    Except String SolverState := do
  let st ←
    if n ≠ dag.root then do
      let q ← sumParents st.x (dag.parent_of n)
      Except.ok { st with x := kset st.x (Key.node n) (XVal.num q) }
    else Except.ok st
  let S ← computeS st.regret n (dag.child_of n)
  (dag.child_of n).foldlM
    (fun st a => do
      let v ←
        if S = 0 then
          Except.ok ((1 : ℚ) / ((dag.child_of n).length : ℚ))
        else do
          let d ← getq (st.regret n)
          let r ← getq (d a)
          Except.ok (max (r - S) 0 / S)
      let d0 ← getq (st.x_prime (Key.node n))
      let st := { st with x_prime := kset st.x_prime (Key.node n) (aset d0 a v) }
      let d1 ← getq (st.x_prime (Key.node n))
      let xa ← getq (d1 a)
      let xv ← getq (st.x (Key.node n))
      match xv with
      | XVal.emptyDict => Except.error "TypeError"
      | XVal.num xn =>
          Except.ok { st with x := kset st.x (Key.pair n a) (XVal.num (xa * xn)) })
    st

/-- DagRegMin.next_strategy: the initialization loop over all dag nodes,
then the regret-matching loop over the active nodes.  The Python method
returns the x table; the embedding returns the whole state, whose x field
is that table. -/
def next_strategy (dag : TeamBeliefDag) (s : SolverState) :
    Except String SolverState := do
  let s ← dag.nodes.foldlM (initNode dag) s
  dag.active_nodes.foldlM (activeStep dag) s

/-- DagRegMin.observe_utility: u starts as a dict with 0 for every
non-terminal dag node; then for every active node, in the stored (forward)
order, u[node] is incremented by the sum over actions of
u[(node, action)] * x_prime[(node, action)] (both tuple-keyed lookups, which
raise KeyError since neither dict ever receives tuple keys from this code;
were both present, multiplying by the dict-valued x_prime entry would raise
TypeError), each regret[node][action] is incremented by
u[node] - u[(node, action)], and u[parent] is incremented by u[node] for
every parent.  The gradient argument is never read anywhere in the body.
The embedding returns the final state together with the local u dict. -/
def observe_utility (dag : TeamBeliefDag) (s : SolverState)
    (gradient : NodeId → ℚ) :
    Except String (SolverState × (Key → Option ℚ)) := do
  let u : Key → Option ℚ :=
    dag.nodes.foldl
      (fun u n =>
        if dag.node_type n ≠ "terminal" then kset u (Key.node n) (0 : ℚ) else u)
      (fun _ => none)
  dag.active_nodes.foldlM
    (fun p n => do
      let st := p.1
      let u := p.2
      let un ← getq (u (Key.node n))
      let sm ← (dag.child_of n).foldlM
        (fun acc a => do
          let ua ← getq (u (Key.pair n a))
          let xp ← getq (st.x_prime (Key.pair n a))
          let _ := ua
          let _ := xp
          let _ := acc
          (Except.error "TypeError" : Except String ℚ))
        (0 : ℚ)
      let u := kset u (Key.node n) (un + sm)
      let st ← (dag.child_of n).foldlM
        (fun st a => do
          let d ← getq (st.regret n)
          let r0 ← getq (d a)
          let unv ← getq (u (Key.node n))
          let ua ← getq (u (Key.pair n a))
          Except.ok { st with regret := nset st.regret n (aset d a (r0 + (unv - ua))) })
        st
      let u ← (dag.parent_of n).foldlM
        (fun u q => do
          let uq ← getq (u (Key.node q))
          let unv ← getq (u (Key.node n))
          Except.ok (kset u (Key.node q) (uq + unv)))
        u
      let _ := gradient
      Except.ok (st, u))
    (s, u)

/-- The builder error taxonomy of the spec, sec 7. -/
inductive BuildError where
  | invalidTeamError
  | malformedGameError
deriving DecidableEq

/-- Modelled from the spec: the body of TeamBeliefDag.efg_to_tbdag in the
source is a bare pass, so no validation or construction logic exists in the
repository; sec 4.1 of the spec supplies the missing contract, whose
validation gate is modelled here: team_players must be exactly two distinct
player identifiers drawn from game.players, and an invalid pair is rejected
with InvalidTeamError before any DAG construction work begins. -/
def efg_to_tbdag (players team_players : List Int) : Except BuildError Unit :=
  if team_players.length = 2 ∧ team_players.Nodup ∧ ∀ p ∈ team_players, p ∈ players
  then Except.ok ()
  else Except.error BuildError.invalidTeamError

/- ===================== concrete instances for the claims ===================== -/

/-- A one-node dag: the root is active, non-chance, with two actions. -/
def c1dag : TeamBeliefDag :=
  { nodes := [0], active_nodes := [0], root := 0,
    child_of := fun n => if n = 0 then [0, 1] else [],
    parent_of := fun _ => [],
    node_type := fun _ => "decision" }

/-- A solver state whose regret table holds regret 1 for both actions of
node 0, so the positive-regret sum S is 2. -/
def c1st : SolverState :=
  { regret := fun n =>
      if n = 0 then
        some (fun a => if a = 0 then some 1 else if a = 1 then some 1 else none)
      else none,
    x := fun _ => none, x_prime := fun _ => none }

/-- A one-node dag whose active root has the single action 5. -/
def c2dag : TeamBeliefDag :=
  { nodes := [0], active_nodes := [0], root := 0,
    child_of := fun n => if n = 0 then [5] else [],
    parent_of := fun _ => [],
    node_type := fun _ => "decision" }

/-- A solver state with zero regret on the single action of node 0. -/
def c2st : SolverState :=
  { regret := fun n =>
      if n = 0 then some (fun a => if a = 5 then some 0 else none) else none,
    x := fun _ => none, x_prime := fun _ => none }

/-- A two-node dag: active root 0 with action 0, active non-root 1 with
action 1, and 0 the sole parent of 1. -/
def c3dag : TeamBeliefDag :=
  { nodes := [0, 1], active_nodes := [0, 1], root := 0,
    child_of := fun n => if n = 0 then [0] else if n = 1 then [1] else [],
    parent_of := fun n => if n = 1 then [0] else [],
    node_type := fun _ => "decision" }

/-- Regrets for c3dag: regret 1 on the root action (so the root strategy
becomes 0 there), regret 0 on the action of node 1. -/
def c3st : SolverState :=
  { regret := fun n =>
      if n = 0 then some (fun a => if a = 0 then some 1 else none)
      else if n = 1 then some (fun a => if a = 1 then some 0 else none)
      else none,
    x := fun _ => none, x_prime := fun _ => none }

/-- A one-node dag: the active root has the two actions 2 and 3. -/
def c4dag : TeamBeliefDag :=
  { nodes := [0], active_nodes := [0], root := 0,
    child_of := fun n => if n = 0 then [2, 3] else [],
    parent_of := fun _ => [],
    node_type := fun _ => "decision" }

/-- Regrets 2 and 1 on the two actions of node 0, so S is 3. -/
def c4st : SolverState :=
  { regret := fun n =>
      if n = 0 then
        some (fun a => if a = 2 then some 2 else if a = 3 then some 1 else none)
      else none,
    x := fun _ => none, x_prime := fun _ => none }

/-- A dag with an active decision node 0 owning action 3 whose child 1 is a
terminal node. -/
def c5dag : TeamBeliefDag :=
  { nodes := [0, 1], active_nodes := [0], root := 0,
    child_of := fun n => if n = 0 then [3] else [],
    parent_of := fun _ => [],
    node_type := fun n => if n = 1 then "terminal" else "decision" }

/-- Zero regret on the single action of node 0 in c5dag. -/
def c5st : SolverState :=
  { regret := fun n =>
      if n = 0 then some (fun a => if a = 3 then some 0 else none) else none,
    x := fun _ => none, x_prime := fun _ => none }

/-- A dag holding one chance node with two actions; chance nodes are not
regret minimized, so it is not in active_nodes. -/
def c6dag : TeamBeliefDag :=
  { nodes := [0], active_nodes := [], root := 0,
    child_of := fun n => if n = 0 then [0, 1] else [],
    parent_of := fun _ => [],
    node_type := fun _ => "chance" }

/-- A dag with one active node with one action, for calling observe_utility
on a completely fresh solver. -/
def c7dag : TeamBeliefDag :=
  { nodes := [0], active_nodes := [0], root := 0,
    child_of := fun n => if n = 0 then [4] else [],
    parent_of := fun _ => [],
    node_type := fun _ => "decision" }

/-- The input file of the duplicate-path scenario: the same node path P is
declared on two player directive lines with different owners and actions. -/
def c10lines : List String :=
  ["node P player 1 actions a", "node P player 2 actions b"]

/-- The Game that read_efg produces from c10lines: the later declaration of
P has overwritten the earlier one in nodes, while order lists P twice. -/
def c10game : Game :=
  { players := [1, 2],
    hist_to_infoset := [],
    infosets := [],
    order := ["P", "P"],
    nodes := [("P",
      { path := "P", node_type := "player", player := some 2,
        actions := ["b"], action_probs := [], payoffs := [] })] }

/-- The input file whose chance line carries a non-numeric probability. -/
def c9badLines : List String := ["node r chance actions a=xyz"]

/- ===================== decidability and reduction helpers ===================== -/

deriving instance DecidableEq for Except

theorem okBind {ε α β : Type} (a : α) (f : α → Except ε β) :
    (Except.ok a : Except ε α) >>= f = f a := rfl

theorem errBind {ε α β : Type} (e : ε) (f : α → Except ε β) :
    (Except.error e : Except ε α) >>= f = Except.error e := rfl

theorem purE {ε α : Type} (a : α) : (pure a : Except ε α) = Except.ok a := rfl

theorem char0val : Char.toNat '0' = 48 := rfl

theorem char5val : Char.toNat '5' = 53 := rfl

/-- The line loop hits the first failing line: if every line before it
parses, readLines returns that line's error decorated with its 1-based
position relative to the running counter. -/
theorem readLines_first_error (post : List String) (line : String) (e : RawErr)
    (hline : parseLine line = Except.error e) :
    ∀ (pre : List String) (st : EfgReadState) (k : Nat),
      (∀ l ∈ pre, ∃ r, parseLine l = Except.ok r) →
      readLines st k (pre ++ line :: post) = Except.error (decorate (k + pre.length) e) := by
  intro pre
  induction pre with
  | nil =>
      intro st k _
      simp [readLines, hline]
  | cons l ls ih =>
      intro st k hok
      obtain ⟨r, hr⟩ := hok l (by simp)
      have hrest : ∀ l2 ∈ ls, ∃ r2, parseLine l2 = Except.ok r2 := by
        intro l2 h2
        exact hok l2 (by simp [h2])
      simp only [List.cons_append, readLines, hr, List.append_eq]
      rw [ih (applyLine st r) (k + 1) hrest]
      have : k + 1 + ls.length = k + (l :: ls).length := by
        simp
        omega
      rw [this]

/- ===================== claim theorems ===================== -/

/-- C1: the claim asserts the regret-matching projection: with S the sum of
positive regrets, a positive-S node gets x_prime[node][a] =
max(regret[node][a], 0) / S.  On c1dag both regrets are 1, so S = 2 and the
claimed value is max(1, 0) / 2 = 1/2 for each action; next_strategy instead
stores max(regret - S, 0) / S = 0 for both actions, because line 49 of
team_belief_dag.py subtracts S inside the max.  The claim is refuted at this
input. -/
theorem c1_regret_matching_violated :
    (next_strategy c1dag c1st).map
        (fun s => (s.x_prime (Key.node 0)).map (fun d => (d 0, d 1)))
      = Except.ok (some (some 0, some 0)) ∧
    (0 : ℚ) ≠ max 1 0 / 2 := by
  constructor
  · norm_num +decide [next_strategy, initNode, activeStep, computeS, sumParents, getq, kset,
      aset, nset, c1dag, c1st, List.foldlM, Except.map, okBind, errBind, purE, max_def]
  · norm_num

/-- C2: the claim asserts that observe_utility resolves every child utility
before a parent reads it and attributes each contribution to its
(parent, action) utility slot.  On c2dag (one active node with one action,
after a successful next_strategy), observe_utility raises KeyError: the
per-(node, action) utility slots u[(node, action)] are never populated by
any step of the code (the gradient argument is ignored and the parent loop
writes the undifferentiated u[parent]), so the very first child read
fails. -/
theorem c2_backward_pass_keyerror :
    (next_strategy c2dag c2st).bind
        (fun s => (observe_utility c2dag s (fun _ => 7)).map (fun _ => true))
      = Except.error "KeyError" := by
  norm_num +decide [next_strategy, initNode, activeStep, computeS, sumParents, getq, kset,
    aset, nset, observe_utility, Except.bind, c2dag, c2st, List.foldlM, Except.map,
    okBind, errBind, purE, max_def]

/-- C3: the claim asserts x[node] = sum over (parent, action) pairs of
x[parent] * x_prime[parent][action] for non-root nodes.  On c3dag the root 0
has regret 1 on its only action, so x_prime[0][0] = 0 after next_strategy,
and the claimed reach of node 1 is x[0] * x_prime[0][0] = 1 * 0 = 0; the
code instead stores x[1] = 1, because line 40 of team_belief_dag.py sums the
bare x[parent] values without the x_prime weight (and without actions).  The
claim is refuted at this input. -/
theorem c3_reach_unweighted :
    (next_strategy c3dag c3st).map
        (fun s => (s.x (Key.node 1), (s.x_prime (Key.node 0)).bind (fun d => d 0)))
      = Except.ok (some (XVal.num 1), some 0) ∧
    (1 : ℚ) ≠ 1 * 0 := by
  constructor
  · norm_num +decide [next_strategy, initNode, activeStep, computeS, sumParents, getq, kset,
      aset, nset, c3dag, c3st, List.foldlM, Except.map, Option.bind, okBind, errBind, purE,
      max_def]
  · norm_num

/-- C4: the claim asserts that after next_strategy every non-chance belief
node's local probabilities sum to 1 regardless of the regrets.  On c4dag the
regrets are 2 and 1, so S = 3 and the code stores max(2 - 3, 0) / 3 = 0 and
max(1 - 3, 0) / 3 = 0: the sum over the node's actions is 0, not 1.  The
claim is refuted at this input. -/
theorem c4_strategy_sum_zero :
    (next_strategy c4dag c4st).map
        (fun s => (s.x_prime (Key.node 0)).map (fun d => (d 2).getD 0 + (d 3).getD 0))
      = Except.ok (some 0) ∧
    (0 : ℚ) ≠ 1 := by
  constructor
  · norm_num +decide [next_strategy, initNode, activeStep, computeS, sumParents, getq, kset,
      aset, nset, c4dag, c4st, List.foldlM, Except.map, okBind, errBind, purE, max_def]
  · norm_num

/-- C5: the claim asserts u[node] = sum of x_prime[node][a] * u[(node, a)]
with u[(node, a)] the child utility, and regret[node][a] += u[node] -
u[(node, a)].  On c5dag (decision node 0 with action 3 leading to terminal
node 1, after a successful next_strategy, with a gradient supplying 9 for
the terminal), observe_utility raises KeyError instead of computing
anything: the gradient is never read, u[(0, 3)] is never populated, and
x_prime is indexed at the tuple key (0, 3) that next_strategy never writes,
so neither the utility nor the regret update can be evaluated. -/
theorem c5_observe_keyerror :
    (next_strategy c5dag c5st).bind
        (fun s => (observe_utility c5dag s (fun n => if n = 1 then 9 else 0)).map
          (fun _ => true))
      = Except.error "KeyError" := by
  norm_num +decide [next_strategy, initNode, activeStep, computeS, sumParents, getq, kset,
    aset, nset, observe_utility, Except.bind, c5dag, c5st, List.foldlM, Except.map,
    okBind, errBind, purE, max_def]

/-- C6: the claim asserts that a chance node's x_prime equals the game's
declared chance probabilities and is never touched by regret matching.  The
source parser does record declared probabilities (here h=0.5, i.e. 1/2),
but next_strategy initializes x_prime[node][action] = 1 for every action of
every node and never consults the probabilities (the dag handed to
DagRegMin does not even carry them), so after next_strategy the chance node
c6dag holds x_prime values (1, 1), not (1/2, 1/2).  The claim is refuted at
this input. -/
theorem c6_chance_probs_ignored :
    (next_strategy c6dag freshSolver).map
        (fun s => (s.x_prime (Key.node 0)).map (fun d => (d 0, d 1)))
      = Except.ok (some (some 1, some 1)) ∧
    (read_efg ["node r chance actions h=0.5 t=0.5"]).map
        (fun g => (dictGet g.nodes "r").map (fun nd => dictGet nd.action_probs "h"))
      = Except.ok (some (some (1 / 2 : ℚ))) ∧
    (1 : ℚ) ≠ 1 / 2 := by
  refine ⟨?_, ?_, by norm_num⟩
  · norm_num +decide [next_strategy, initNode, activeStep, computeS, sumParents, getq, kset,
      aset, nset, c6dag, freshSolver, List.foldlM, Except.map, okBind, errBind, purE, max_def]
  · norm_num +decide [read_efg, readLines, parseLine, applyLine, parseChanceTok, parsePyFloat,
      parseMantissa, parseExponent, stripSign, pyStrip, strStarts, strDrop, strTake, pySplit1,
      splitFirst, pyMaxSplit1, pyWsSplit, wsSplitAux, parsePyInt, digitsToNat, dictSet,
      dictGet, setAdd, sortInts, insertSorted, emptyGame, decorate, Except.map, List.mapM,
      List.mapM.loop, okBind, errBind, char0val, char5val]

/-- C7: the claim asserts that observe_utility invoked on a fresh solver
before any next_strategy call fails with InconsistentStateError.  The
source never defines such an error: on c7dag (one active node with one
action) a fresh solver's observe_utility raises plain KeyError from the
never-populated u[(node, action)] slot, a different exception. -/
theorem c7_wrong_exception :
    (observe_utility c7dag freshSolver (fun _ => 0)).map (fun _ => true)
      = Except.error "KeyError" ∧
    "KeyError" ≠ "InconsistentStateError" := by
  constructor
  · norm_num +decide [observe_utility, getq, kset, aset, nset, c7dag, freshSolver,
      List.foldlM, List.foldl, Except.map, okBind, errBind, purE]
  · decide

/-- C8: for every team_players argument that is not a 2-subset of the known
players (wrong size, a duplicate, or an identifier outside game.players),
the build operation fails with InvalidTeamError.  Settled against the
spec-modelled validation gate, since the builder body in the source is a
bare pass. -/
theorem c8_invalid_team_rejected (players team : List Int)
    (h : team.length ≠ 2 ∨ ¬ team.Nodup ∨ ∃ p ∈ team, p ∉ players) :
    efg_to_tbdag players team = Except.error BuildError.invalidTeamError := by
  unfold efg_to_tbdag
  rw [if_neg]
  rintro ⟨h1, h2, h3⟩
  rcases h with h | h | ⟨p, hp, hnp⟩
  · exact h h1
  · exact h h2
  · exact hnp (h3 p hp)

/-- C8 witness: the duplicated pair [1, 1] is rejected against players
[1, 2, 3]. -/
theorem c8_invalid_team_rejected_witness :
    efg_to_tbdag [1, 2, 3] [1, 1] = Except.error BuildError.invalidTeamError :=
  c8_invalid_team_rejected [1, 2, 3] [1, 1] (Or.inr (Or.inl (by decide)))

/-- C9 counterexample: on the input file whose chance line carries the
non-numeric probability token a=xyz, parsing does fail, but with the
ValueError propagated from float(), whose message carries no line number —
refuting the claim that every malformed key=value token produces an error
reporting the offending line number. -/
theorem c9_no_line_number_on_float_error :
    read_efg c9badLines
      = Except.error (ParseErr.valueErr "could not convert string to float: xyz") ∧
    reportsLine (ParseErr.valueErr "could not convert string to float: xyz") = false := by
  exact ⟨by decide, rfl⟩

/-- C9 (amended): if every line before some line parses and that line fails,
read_efg aborts with that line's error and returns no game; the error
carries the offending 1-based line number exactly when the offense is one of
read_efg's own format errors (unmatched directive form, missing equals sign,
bad infoset/player shape), while a float()/int() conversion failure aborts
without a line number. -/
theorem c9_parse_abort (pre : List String) (line : String) (post : List String) (e : RawErr)
    (hpre : ∀ l ∈ pre, ∃ r, parseLine l = Except.ok r)
    (hline : parseLine line = Except.error e) :
    read_efg (pre ++ line :: post) = Except.error (decorate (pre.length + 1) e) ∧
    (∀ m, e = RawErr.atLine m →
      decorate (pre.length + 1) e = ParseErr.lineErr (pre.length + 1) m ∧
      reportsLine (decorate (pre.length + 1) e) = true) ∧
    (∀ m, e = RawErr.noLine m →
      reportsLine (decorate (pre.length + 1) e) = false) := by
  refine ⟨?_, ?_, ?_⟩
  · unfold read_efg
    rw [readLines_first_error post line e hline pre _ 1 hpre, Nat.add_comm]
  · rintro m rfl
    exact ⟨rfl, rfl⟩
  · rintro m rfl
    rfl

/-- C9 witness: a one-line file with an unmatched directive aborts with the
line-numbered error for line 1. -/
theorem c9_parse_abort_witness :
    read_efg ["garbage"]
      = Except.error
          (ParseErr.lineErr 1 "Expected line to start with node or infoset, got: garbage") := by
  have h := c9_parse_abort [] "garbage" []
      (RawErr.atLine "Expected line to start with node or infoset, got: garbage")
      (by intro l hl; cases hl) (by decide)
  simpa [decorate] using h.1

/-- C10: the two-line file c10lines declares the same node path P twice;
read_efg completes without raising, the later player-2 declaration has
silently overwritten the earlier player-1 one in the nodes mapping, and the
order list records P twice. -/
theorem c10_duplicate_paths_accepted :
    read_efg c10lines = Except.ok c10game ∧
    (dictGet c10game.nodes "P").map Node.player = some (some 2) ∧
    c10game.order = ["P", "P"] := by
  refine ⟨by decide, rfl, rfl⟩
